import Mathlib

/-!
# Verification of the CyberGuard content-moderation extension core

A shallow embedding of the extension's content pipeline:

* `utils/ai-service.js` — local fallback classification (`calculateLocalToxicityScore`)
  and local fallback rephrasing (`localRephrase`);
* the background script — `analyzeTextContent` and `rephraseTextContent`, which call
  the remote service and degrade to the local fallbacks;
* the content script — `shouldIgnoreElement`, `analyzeElement` (its synchronous part
  and its asynchronous completion), `handleAnalysisResult`, `addWarningIndicator`,
  `rephraseContent` (success completion), `removeAllModifications`, and the mutation
  observer's debounce state.

The DOM is modelled as a tree of nodes (`DNode`); `innerText` is modelled as the
concatenated text content of the subtree; JavaScript regular expressions used by the
source are modelled by executable character-list searches that implement the exact
literal alternatives and the ASCII word-boundary semantics of the patterns involved.
-/

namespace CyberGuard

/-! ## Character and string utilities (JS regex semantics) -/

/-- JS `\w` (ASCII word character): letter, digit or underscore. -/
def isWordChar (c : Char) : Bool := c.isAlphanum || c == '_'

/-- Whitespace trimmed by JS `String.prototype.trim` (ASCII subset). -/
def isJsSpace (c : Char) : Bool :=
  c == ' ' || c == '\t' || c == '\n' || c == '\r' || c == '\x0b' || c == '\x0c'

/-- Model of JS `text.trim()`. -/
def jsTrim (s : String) : String :=
  (((s.toList.dropWhile isJsSpace).reverse.dropWhile isJsSpace).reverse).asString

/-- Model of JS `text.toLowerCase()` for the ASCII texts involved. -/
def lowerList (s : String) : List Char := s.toList.map Char.toLower

/-- Substring containment, the model of a literal (anchored-nowhere) regex test. -/
def containsSub (pat : List Char) : List Char → Bool
  | [] => pat.isPrefixOf ([] : List Char)
  | c :: t => pat.isPrefixOf (c :: t) || containsSub pat t

/-- The position right after a match satisfies `\b` when the next character (if any)
is not a word character; all patterns used end in a word character. -/
def boundaryOk : List Char → Bool
  | [] => true
  | d :: _ => !isWordChar d

/-- Auxiliary whole-word search: `prevW` records whether the character immediately
before the current position is a word character (for the leading `\b`). -/
def containsWordAux (pat : List Char) (prevW : Bool) : List Char → Bool
  | [] => false
  | c :: t =>
      (!prevW && pat.isPrefixOf (c :: t) && boundaryOk ((c :: t).drop pat.length)) ||
      containsWordAux pat (isWordChar c) t

/-- Model of a `\bword\b` regex test (the word may contain an interior space, as in
the source's alternative written as two words). -/
def containsWord (pat : List Char) (s : List Char) : Bool := containsWordAux pat false s

/-- Search for a whole word scanning only over non-newline characters: the model of
the `.*\bword\b` tail of a pattern, JS `.` not matching line terminators. -/
def wordSearchNoNL (pat : List Char) (prevW : Bool) : List Char → Bool
  | [] => false
  | c :: t =>
      (!prevW && pat.isPrefixOf (c :: t) && boundaryOk ((c :: t).drop pat.length)) ||
      (!(c == '\n' || c == '\r') && wordSearchNoNL pat (isWordChar c) t)

/-- Model of the source's harmful pattern with a gap, written there as a word,
an arbitrary (non-newline) gap, and a second word, each with word boundaries. -/
def containsWordGapWord (w1 w2 : List Char) (prevW : Bool) : List Char → Bool
  | [] => false
  | c :: t =>
      (!prevW && w1.isPrefixOf (c :: t) &&
        (boundaryOk ((c :: t).drop w1.length) &&
          wordSearchNoNL w2 true ((c :: t).drop w1.length))) ||
      containsWordGapWord w1 w2 (isWordChar c) t

/-- One token of a censored-word pattern: a literal character, or the character
class written `[*\w]` in the source (an asterisk or a word character). -/
inductive PTok where
  | lit (c : Char)
  | wild
deriving Repr, DecidableEq

def ptokMatch : PTok → Char → Bool
  | .lit c, d => c == d
  | .wild, d => d == '*' || isWordChar d

/-- Match a token pattern as a prefix, returning the rest of the input on success. -/
def pmatch : List PTok → List Char → Option (List Char)
  | [], s => some s
  | _ :: _, [] => none
  | p :: ps, c :: cs => if ptokMatch p c then pmatch ps cs else none

def containsPatAux (pat : List PTok) (prevW : Bool) : List Char → Bool
  | [] => false
  | c :: t =>
      (match pmatch pat (c :: t) with
       | some rest => !prevW && boundaryOk rest
       | none => false) ||
      containsPatAux pat (isWordChar c) t

/-- Model of a `\b p \b` test for a censored-word token pattern. -/
def containsPat (pat : List PTok) (s : List Char) : Bool := containsPatAux pat false s

/-- Case-insensitive prefix match (the pattern is given in lowercase). -/
def ciPrefixOf : List Char → List Char → Bool
  | [], _ => true
  | _ :: _, [] => false
  | p :: ps, c :: cs => (Char.toLower c == Char.toLower p) && ciPrefixOf ps cs

/-- Auxiliary global whole-word case-insensitive replacement, the model of JS
`str.replace(new RegExp(backslash-b word backslash-b, gi), repl)`: after a match the
scan resumes right after the matched word in the original string (the replacement
text is not rescanned). `skip` counts characters of a match still to be consumed;
`prevW` records whether the previously consumed character is a word character. -/
def replaceScan (pat repl : List Char) (skip : Nat) (prevW : Bool) : List Char → List Char
  | [] => []
  | c :: t =>
      match skip with
      | k + 1 => replaceScan pat repl k (isWordChar c) t
      | 0 =>
          if !prevW && ciPrefixOf pat (c :: t) && boundaryOk ((c :: t).drop pat.length) then
            repl ++ replaceScan pat repl (pat.length - 1) (isWordChar c) t
          else c :: replaceScan pat repl 0 (isWordChar c) t

/-- Whole-word, case-insensitive, global replacement of `word` by `repl`. -/
def replaceWordCI (word repl : String) (s : List Char) : List Char :=
  replaceScan word.toList repl.toList 0 false s

/-! ## `utils/ai-service.js` — local fallback heuristics -/

/-- The result of the local fallback classifier. -/
structure LocalVerdict where
  isHarmful : Bool
  category : String
  confidence : ℚ
  explanation : String
deriving Repr, DecidableEq

/-- The nine literal alternatives of the source's first harmful pattern,
written there as a verb alternation followed by an object alternation. -/
def harmfulRecipePhrases : List String :=
  ["how to make bomb", "how to make explosive", "how to make weapon",
   "how to create bomb", "how to create explosive", "how to create weapon",
   "how to build bomb", "how to build explosive", "how to build weapon"]

/-- The harmful pattern group of `calculateLocalToxicityScore`. -/
def harmfulTest (tl : List Char) : Bool :=
  harmfulRecipePhrases.any (fun p => containsSub p.toList tl) ||
  containsSub "suicide method".toList tl ||
  containsSub "kidnap".toList tl ||
  containsWordGapWord "kill".toList "people".toList false tl

/-- The offensive pattern group: censored-word patterns with a `[*\w]` hole. -/
def offensivePatterns : List (List PTok) :=
  [[.lit 'f', .wild, .lit 'c', .lit 'k'],
   [.lit 's', .wild, .lit 'i', .lit 't'],
   [.lit 'a', .wild, .lit 's'],
   [.lit 'b', .wild, .lit 't', .lit 'c', .lit 'h'],
   [.lit 'n', .wild, .lit 'g', .lit 'g', .wild, .lit 'r'],
   [.lit 'c', .wild, .lit 'n', .lit 't']]

def offensiveTest (tl : List Char) : Bool :=
  offensivePatterns.any (fun p => containsPat p tl)

/-- The inappropriate pattern group: plain substring tests. -/
def inappropriateTest (tl : List Char) : Bool :=
  (["porn", "nude", "sex", "genital"] : List String).any (fun p => containsSub p.toList tl)

/-- Model of `calculateLocalToxicityScore` from `utils/ai-service.js`: pattern groups are
checked in order harmful, offensive, inappropriate; the first match wins with
confidence 0.7, otherwise the text is safe with confidence 0.6. -/
def calculateLocalToxicityScore (text : String) : LocalVerdict :=
  let lowerText := lowerList text
  if harmfulTest lowerText then
    { isHarmful := true, category := "harmful", confidence := 7/10,
      explanation := "This content may contain harmful material (detected locally)" }
  else if offensiveTest lowerText then
    { isHarmful := true, category := "offensive", confidence := 7/10,
      explanation := "This content may contain offensive material (detected locally)" }
  else if inappropriateTest lowerText then
    { isHarmful := true, category := "inappropriate", confidence := 7/10,
      explanation := "This content may contain inappropriate material (detected locally)" }
  else
    { isHarmful := false, category := "safe", confidence := 6/10,
      explanation := "This content appears to be safe (analyzed locally)" }

/-- The replacement table of `localRephrase`, in source order. -/
def replacementTable : List (String × String) :=
  [("fuck", "****"), ("shit", "****"), ("bitch", "*****"), ("ass", "***"),
   ("kill", "harm"), ("bomb", "device"), ("weapon", "tool"),
   ("porn", "content"), ("nude", "unclothed"), ("sex", "intimacy")]

/-- The whole-word case-insensitive substitutions of `localRephrase`. -/
def applyReplacements (text : String) : String :=
  (replacementTable.foldl (fun acc wr => replaceWordCI wr.1 wr.2 acc) text.toList).asString

/-- Model of `localRephrase` from `utils/ai-service.js`: apply the substitution table, then,
for the harmful category, discard the substituted text and return the fixed
safety-notice sentence. -/
def localRephrase (text category : String) : String :=
  let rephrased := applyReplacements text
  if category == "harmful" then "[This content has been modified for safety reasons]"
  else rephrased

/-! ## The background script — remote calls with local degradation -/

/-- The outcome of a `fetch` to the remote service: a response with an HTTP status
and an optional parsed JSON body (`none` when `response.json()` throws), or a
transport failure (the `fetch` promise rejects). -/
inductive FetchResult (α : Type) where
  | response (status : Nat) (body : Option α)
  | transportError
deriving Repr, DecidableEq

/-- Holds (as `true`) exactly when the remote call did not come back as a 2xx response:
a non-2xx status or a network/transport failure. -/
def remoteUnavailable {α : Type} : FetchResult α → Bool
  | .response status _ => !(decide (200 ≤ status) && decide (status ≤ 299))
  | .transportError => true

/-- An analysis verdict as the content script receives it. -/
structure AnalysisResult where
  text : String := ""
  isHarmful : Bool := false
  category : String := "safe"
  confidence : ℚ := 0
  explanation : String := ""
  error : Bool := false
deriving Repr, DecidableEq

/-- The verdict the background script builds from the local fallback classifier. -/
def verdictOfLocal (text : String) : AnalysisResult :=
  let localResult := calculateLocalToxicityScore text
  { text := text, isHarmful := localResult.isHarmful, category := localResult.category,
    confidence := localResult.confidence, explanation := localResult.explanation }

/-- Model of `analyzeTextContent` from the background script: return the remote verdict on a
2xx response; on a non-2xx status, an unparseable body, or a transport error, fall
back to `calculateLocalToxicityScore`. The surrounding try/catch means the function
always resolves with a result, never with an error. -/
def analyzeTextContent (fetched : FetchResult AnalysisResult) (text : String) :
    Except String AnalysisResult :=
  match fetched with
  | .response status body =>
      if 200 ≤ status ∧ status ≤ 299 then
        match body with
        | some r => .ok r
        | none => .ok (verdictOfLocal text)
      else .ok (verdictOfLocal text)
  | .transportError => .ok (verdictOfLocal text)

/-- The result of a rephrase call as the content script receives it. -/
structure RephraseResult where
  original : String
  rephrased : String
  error : Bool := false
deriving Repr, DecidableEq

/-- Model of `rephraseTextContent` from the background script: return the remote rewrite on a
2xx response; otherwise fall back to `localRephrase`. -/
def rephraseTextContent (fetched : FetchResult RephraseResult) (text category : String) :
    Except String RephraseResult :=
  match fetched with
  | .response status body =>
      if 200 ≤ status ∧ status ≤ 299 then
        match body with
        | some r => .ok r
        | none => .ok { original := text, rephrased := localRephrase text category }
      else .ok { original := text, rephrased := localRephrase text category }
  | .transportError => .ok { original := text, rephrased := localRephrase text category }

/-! ## The DOM model -/

/-- The inline style properties the content script reads or writes. -/
structure Style where
  position : String := ""
  opacity : String := ""
  transition : String := ""
  display : String := ""
deriving Repr, DecidableEq

/-- A DOM node: a text node, or an element with a (uppercase) tag name, a class
list, an attribute list, inline styles and children. -/
inductive DNode where
  | text (s : String)
  | elem (tag : String) (classes : List String) (attrs : List (String × String))
      (style : Style) (children : List DNode)
deriving Repr

def DNode.tagName : DNode → String
  | .text _ => ""
  | .elem t _ _ _ _ => t

def DNode.classList : DNode → List String
  | .text _ => []
  | .elem _ c _ _ _ => c

def DNode.attrList : DNode → List (String × String)
  | .text _ => []
  | .elem _ _ a _ _ => a

def DNode.styleOf : DNode → Style
  | .text _ => {}
  | .elem _ _ _ st _ => st

def DNode.childList : DNode → List DNode
  | .text _ => []
  | .elem _ _ _ _ ch => ch

/-- Model of `classList.contains`. -/
def hasClass (n : DNode) (cls : String) : Bool := n.classList.any (fun c => c == cls)

/-- Model of `getAttribute`. -/
def getAttr (n : DNode) (name : String) : Option String :=
  (n.attrList.find? (fun p => p.1 == name)).map (fun p => p.2)

/-- Model of `hasAttribute`. -/
def hasAttr (n : DNode) (name : String) : Bool := n.attrList.any (fun p => p.1 == name)

/-- Model of `setAttribute`: replace the value in place, or append the attribute. -/
def setAttr (n : DNode) (name v : String) : DNode :=
  match n with
  | .text s => .text s
  | .elem t c a st ch =>
      if a.any (fun p => p.1 == name) then
        .elem t c (a.map (fun p => if p.1 == name then (name, v) else p)) st ch
      else .elem t c (a ++ [(name, v)]) st ch

/-- Model of `classList.add`. -/
def addClass (n : DNode) (cls : String) : DNode :=
  match n with
  | .text s => .text s
  | .elem t c a st ch => if c.any (fun x => x == cls) then .elem t c a st ch
      else .elem t (c ++ [cls]) a st ch

/-- Model of `classList.remove`. -/
def removeClass (n : DNode) (cls : String) : DNode :=
  match n with
  | .text s => .text s
  | .elem t c a st ch => .elem t (c.filter (fun x => x != cls)) a st ch

/-- Replace an element's children. -/
def withChildList (n : DNode) (newCh : List DNode) : DNode :=
  match n with
  | .text s => .text s
  | .elem t c a st _ => .elem t c a st newCh

/-- Model of `appendChild`. -/
def appendChild (n : DNode) (child : DNode) : DNode :=
  withChildList n (n.childList ++ [child])

/-- Assigning `element.textContent = s`: all children are replaced by a single text
node (none when `s` is empty). -/
def setTextContent (n : DNode) (s : String) : DNode :=
  withChildList n (if s == "" then [] else [.text s])

def setStylePosition (n : DNode) (v : String) : DNode :=
  match n with
  | .text s => .text s
  | .elem t c a st ch => .elem t c a { st with position := v } ch

def setStyleOpacity (n : DNode) (v : String) : DNode :=
  match n with
  | .text s => .text s
  | .elem t c a st ch => .elem t c a { st with opacity := v } ch

def setStyleTransition (n : DNode) (v : String) : DNode :=
  match n with
  | .text s => .text s
  | .elem t c a st ch => .elem t c a { st with transition := v } ch

mutual

/-- Model of `textContent` of a node: the concatenated text of its subtree. -/
def textContentN : DNode → String
  | .text s => s
  | .elem _ _ _ _ ch => textContentL ch

def textContentL : List DNode → String
  | [] => ""
  | n :: ns => textContentN n ++ textContentL ns

end

/-- The model of `element.innerText` (the rendered text the content script reads):
the subtree's text content. -/
def innerTextOf (e : DNode) : String := textContentN e

mutual

/-- Does the node or one of its descendants satisfy `p`? -/
def anyNodeB (p : DNode → Bool) : DNode → Bool
  | .text s => p (.text s)
  | .elem t c a st ch => p (.elem t c a st ch) || anyListB p ch

def anyListB (p : DNode → Bool) : List DNode → Bool
  | [] => false
  | n :: ns => anyNodeB p n || anyListB p ns

end

mutual

/-- Count the nodes of a subtree (the node included) satisfying `p`. -/
def countNodeB (p : DNode → Bool) : DNode → Nat
  | .text s => if p (.text s) then 1 else 0
  | .elem t c a st ch => (if p (.elem t c a st ch) then 1 else 0) + countListB p ch

def countListB (p : DNode → Bool) : List DNode → Nat
  | [] => 0
  | n :: ns => countNodeB p n + countListB p ns

end

/-- Model of `element.querySelector` with a single class selector, as a boolean test:
does some proper descendant carry the class? -/
def descendantHasClass (e : DNode) (cls : String) : Bool :=
  anyListB (fun n => hasClass n cls) e.childList

/-- The number of proper descendants carrying the class. -/
def descendantClassCount (e : DNode) (cls : String) : Nat :=
  countListB (fun n => hasClass n cls) e.childList

/-! ## The content script — element filter and analysis pipeline -/

/-- The extension settings, as fetched from the collaborator store. -/
structure Settings where
  enabled : Bool := true
  autoRephrase : Bool := true
  showWarnings : Bool := true
  sensitivityLevel : String := "medium"
deriving Repr, DecidableEq

/-- Ancestor facts about an element that the content script queries through
`parentElement` and `closest`, carried as explicit context in the embedding. -/
structure AncestorCtx where
  parentClasses : List String := []
  insideNav : Bool := false
  insideHeader : Bool := false
  insideFooter : Bool := false
deriving Repr, DecidableEq

/-- The list `IGNORE_TAGS` from the content script. -/
def IGNORE_TAGS : List String :=
  ["SCRIPT", "STYLE", "NOSCRIPT", "SVG", "CANVAS", "INPUT", "TEXTAREA"]

/-- Does a class start with the extension's namespace, i.e. match the test
`cls.startsWith` of the string `ai-guardian-`? -/
def startsWithAiGuardian (c : String) : Bool := "ai-guardian-".toList.isPrefixOf c.toList

/-- The list `IGNORE_CLASS_PATTERNS`: an unanchored `ai-guardian-` pattern (case-sensitive)
and case-insensitive substring patterns for code, syntax and pre. -/
def matchesIgnoreClassPatterns (c : String) : Bool :=
  containsSub "ai-guardian-".toList c.toList ||
  containsSub "code".toList (lowerList c) ||
  containsSub "syntax".toList (lowerList c) ||
  containsSub "pre".toList (lowerList c)

/-- The processed-marker attribute name. -/
def processedAttr : String := "data-ai-guardian-processed"

/-- The selector list of the query the content script uses to detect its own
markup inside an element. -/
def guardianMarkupClasses : List String :=
  ["ai-guardian-rephrased", "ai-guardian-warning", "ai-guardian-indicator",
   "ai-guardian-flagged"]

/-- Model of `shouldIgnoreElement` from the content script. -/
def shouldIgnoreElement (ctx : AncestorCtx) (e : DNode) : Bool :=
  e.classList.any startsWithAiGuardian ||
  ctx.parentClasses.any startsWithAiGuardian ||
  anyListB (fun n => guardianMarkupClasses.any (fun cls => hasClass n cls)) e.childList ||
  IGNORE_TAGS.any (fun t => t == e.tagName) ||
  e.classList.any matchesIgnoreClassPatterns ||
  (((e.styleOf.position == "relative") || !(e.styleOf.opacity == "") ||
      !(e.styleOf.transition == "")) && hasAttr e processedAttr)

/-- The word alternatives of the content script's quick local pre-filter regex. -/
def quickCheckWords : List String :=
  ["fuck", "shit", "ass", "porn", "nude", "sex", "bomb", "explosive", "hack",
   "break in", "harm", "kill", "suicide"]

/-- The quick pre-filter: a case-insensitive whole-word test for any alternative. -/
def quickCheckTest (text : String) : Bool :=
  quickCheckWords.any (fun w => containsWord w.toList (lowerList text))

/-- The substring alternatives of the common-UI-text regex. -/
def uiTextWords : List String :=
  ["menu", "navigation", "search", "copyright", "terms", "privacy", "sign in",
   "login", "home", "about"]

/-- The case-insensitive substring test for common UI text. -/
def uiTextTest (text : String) : Bool :=
  uiTextWords.any (fun w => containsSub w.toList (lowerList text))

/-- The short-UI-text exclusion of `analyzeElement`: trimmed text under 20
characters that looks like UI chrome or sits in a button/nav/header/footer. -/
def uiTextExcluded (ctx : AncestorCtx) (e : DNode) (text : String) : Bool :=
  decide (text.length < 20) &&
  (uiTextTest text || e.tagName == "BUTTON" || e.tagName == "NAV" ||
   (e.tagName == "NAV" || ctx.insideNav) ||
   (e.tagName == "HEADER" || ctx.insideHeader) ||
   (e.tagName == "FOOTER" || ctx.insideFooter))

/-- The result cache: analyzed text mapped to its verdict. -/
abbrev Cache : Type := List (String × AnalysisResult)

/-- Model of `analyzedTextCache.get` and `has`. -/
def cacheGet (cache : Cache) (text : String) : Option AnalysisResult :=
  (cache.find? (fun p => p.1 == text)).map (fun p => p.2)

/-- Model of `analyzedTextCache.set`. -/
def cacheSet (cache : Cache) (text : String) (r : AnalysisResult) : Cache :=
  (text, r) :: cache

/-- Mark the element with the processed attribute. -/
def markProcessed (e : DNode) : DNode := setAttr e processedAttr "true"

/-- What the synchronous part of `analyzeElement` decided to do. -/
inductive AnalyzeAction where
  | skipped
  | markedOnly
  | cacheHit (result : AnalysisResult)
  | remoteRequested (text : String) (delayMs : Nat)
deriving Repr, DecidableEq

/-- The synchronous body of `analyzeElement`, up to (and including) scheduling the
remote call: the ignore filter, the processed-marker check, the text extraction and
minimum length, the eager processed marking, the short-UI-text exclusion, the cache
lookup, the quick pre-filter, the processing indicator styles, and the
length-scaled request delay. On a cache hit the source immediately calls
`handleAnalysisResult` with the cached verdict; that call is modelled by composing
this function's `cacheHit` action with `handleAnalysisResult`, mirroring the
source's call structure. -/
def analyzeElementSync (settings : Settings) (cache : Cache) (ctx : AncestorCtx)
    (e : DNode) : DNode × AnalyzeAction :=
  if shouldIgnoreElement ctx e then (e, .skipped)
  else if hasAttr e processedAttr then (e, .skipped)
  else if innerTextOf e == "" then (e, .skipped)
  else
    let text := jsTrim (innerTextOf e)
    if text.length < 10 then (e, .skipped)
    else
      let e1 := markProcessed e
      if uiTextExcluded ctx e1 text then (e1, .markedOnly)
      else
        match cacheGet cache text with
        | some cachedResult => (e1, .cacheHit cachedResult)
        | none =>
            if !quickCheckTest text && decide (text.length < 100) then (e1, .markedOnly)
            else
              let e2 := if settings.autoRephrase then
                  setStyleOpacity (setStyleTransition e1 "opacity 0.2s ease") "0.95"
                else e1
              (e2, .remoteRequested text (min (50 + text.length / 100) 200))

/-- The empty svg icon inside the extension's badges (it contributes no text). -/
def svgIcon : DNode := .elem "SVG" [] [] {} []

/-- The warning badge built by `addWarningIndicator`: a span with the warning class
and a category-scoped class, holding the icon and a tooltip with the verdict's
explanation. -/
def warningBadge (result : AnalysisResult) : DNode :=
  .elem "SPAN" ["ai-guardian-warning", "ai-guardian-" ++ result.category] [] {}
    [svgIcon,
     .elem "SPAN" ["ai-guardian-tooltip"] [] {}
       (if result.explanation == "" then [] else [.text result.explanation])]

/-- Model of `addWarningIndicator` from the content script: skip when a warning already
exists among the element's descendants; otherwise make a statically positioned
element relative and append one badge. -/
def addWarningIndicator (e : DNode) (result : AnalysisResult) : DNode :=
  if descendantHasClass e "ai-guardian-warning" then e
  else
    let e1 := if e.styleOf.position == "" then setStylePosition e "relative" else e
    appendChild e1 (warningBadge result)

/-- The guard of `rephraseContent`: the element is itself already rephrased, or
contains a rephrased descendant. -/
def rephraseGuard (e : DNode) : Bool :=
  hasClass e "ai-guardian-rephrased" || descendantHasClass e "ai-guardian-rephrased"

/-- The edited-content indicator appended inside the rephrase wrapper. -/
def editIndicator : DNode :=
  .elem "SPAN" ["ai-guardian-indicator"]
    [("title", "This content was automatically rephrased")] {} [svgIcon]

/-- The synchronous part of `rephraseContent`: the no-op guard, the processing
class, and the rephrase request carrying the verdict's text and category. -/
def rephraseContentStart (e : DNode) (result : AnalysisResult) :
    DNode × Option (String × String) :=
  if rephraseGuard e then (removeClass e "ai-guardian-processing", none)
  else (addClass e "ai-guardian-processing", some (result.text, result.category))

/-- The successful completion of `rephraseContent` applied to an element: build
the wrapper span carrying the rephrased text, the original text as the
`data-original-text` provenance attribute, the element's non-extension classes and
display style; empty the element, append the wrapper, append the edited indicator
inside it, and drop the processing class. `origText` is the verdict's `text`
field and `rephrasedText` the collaborator's rewrite. -/
def rephraseContentSuccess (e : DNode) (origText rephrasedText : String) : DNode :=
  if rephraseGuard e then removeClass e "ai-guardian-processing"
  else
    let e1 := addClass e "ai-guardian-processing"
    let keptClasses := e1.classList.filter (fun c => !startsWithAiGuardian c)
    let wrapper : DNode :=
      .elem "SPAN" ("ai-guardian-rephrased" :: keptClasses)
        [("data-original-text", origText)]
        { display := e1.styleOf.display }
        ((if rephrasedText == "" then [] else [DNode.text rephrasedText]) ++ [editIndicator])
    removeClass (withChildList e1 [wrapper]) "ai-guardian-processing"

/-- Model of `handleAnalysisResult` from the content script: safe verdicts do nothing;
otherwise add a warning badge when warnings are on, start a rephrase when
auto-rephrase is on, and otherwise mark the element with the flagged class.
Returns the element and the rephrase request, if one was issued. -/
def handleAnalysisResult (settings : Settings) (e : DNode) (result : AnalysisResult) :
    DNode × Option (String × String) :=
  if !result.isHarmful || result.category == "safe" then (e, none)
  else
    let e1 := if settings.showWarnings then addWarningIndicator e result else e
    if settings.autoRephrase then rephraseContentStart e1 result
    else (addClass e1 "ai-guardian-flagged", none)

/-- The completion callback of the `ANALYZE_TEXT` message in `analyzeElement`:
restore opacity when auto-rephrase is on, and when a result arrived without the
error flag, cache it and hand it to `handleAnalysisResult`. The callback reads the
settings current at completion time. -/
def analysisCompletion (settings : Settings) (cache : Cache) (e : DNode)
    (text : String) (result : Option AnalysisResult) :
    DNode × Cache × Option (String × String) :=
  let e1 := if settings.autoRephrase then setStyleOpacity e "1" else e
  match result with
  | some r =>
      if !r.error then
        let cache1 := cacheSet cache text r
        let h := handleAnalysisResult settings e1 r
        (h.1, cache1, h.2)
      else (e1, cache, none)
  | none => (e1, cache, none)

/-! ## `removeAllModifications` — the full reversal routine -/

mutual

/-- Remove every element of the subtree carrying the class (the snapshot-then-remove
of `querySelectorAll(...).forEach(el.remove())`: removing an ancestor also removes
the matching nodes inside it). The root itself is kept and filtered recursively. -/
def dropClassNodes (cls : String) : DNode → DNode
  | .text s => .text s
  | .elem t c a st ch => .elem t c a st (dropClassList cls ch)

def dropClassList (cls : String) : List DNode → List DNode
  | [] => []
  | n :: ns =>
      (if hasClass n cls then [] else [dropClassNodes cls n]) ++ dropClassList cls ns

end

/-- Find the first direct child that is a rephrase wrapper with a truthy
`data-original-text` attribute, returning that original text. Wrappers with a
missing or empty attribute are skipped, as the source's truthiness test skips
them. -/
def findRestorableOrig : List DNode → Option String
  | [] => none
  | n :: ns =>
      if hasClass n "ai-guardian-rephrased" then
        match getAttr n "data-original-text" with
        | some orig => if orig == "" then findRestorableOrig ns else some orig
        | none => findRestorableOrig ns
      else findRestorableOrig ns

mutual

/-- The restore pass of `removeAllModifications`: for every rephrase wrapper with
recorded original text, its parent's text content becomes that original text
(which detaches all of the parent's children, nested wrappers included); parents
without such a wrapper child are recursed into. -/
def restoreRephrasedN : DNode → DNode
  | .text s => .text s
  | .elem t c a st ch =>
      match findRestorableOrig ch with
      | some orig => .elem t c a st [.text orig]
      | none => .elem t c a st (restoreRephrasedL ch)

def restoreRephrasedL : List DNode → List DNode
  | [] => []
  | n :: ns => restoreRephrasedN n :: restoreRephrasedL ns

end

mutual

/-- The final pass of `removeAllModifications`: every element carrying the
processed marker loses the marker and the flagged class. -/
def stripProcessedN : DNode → DNode
  | .text s => .text s
  | .elem t c a st ch =>
      if a.any (fun p => p.1 == processedAttr) then
        .elem t (c.filter (fun x => x != "ai-guardian-flagged"))
          (a.filter (fun p => !(p.1 == processedAttr))) st (stripProcessedL ch)
      else .elem t c a st (stripProcessedL ch)

def stripProcessedL : List DNode → List DNode
  | [] => []
  | n :: ns => stripProcessedN n :: stripProcessedL ns

end

/-- Model of `removeAllModifications` from the content script, applied to a forest of
document nodes: remove warning badges, remove edited indicators, restore original
text from wrapper provenance, then strip processed markers and flagged classes. -/
def removeAllModifications (doc : List DNode) : List DNode :=
  stripProcessedL (restoreRephrasedL
    (dropClassList "ai-guardian-indicator" (dropClassList "ai-guardian-warning" doc)))

/-! ## The mutation observer and its debounce state -/

/-- The observer's closure state: whether the observer is connected, the buffered
`pendingMutations` array, and whether the `processingTimeout` debounce timer is
armed (`processingTimeout` non-null). -/
structure WatcherState where
  connected : Bool := false
  pendingMutations : List DNode := []
  timerArmed : Bool := false
deriving Repr

/-- Model of `setupObserver`: a fresh connected observer with empty buffers. -/
def setupObserverState : WatcherState := { connected := true }

/-- Is the node an element node (`nodeType === Node.ELEMENT_NODE`)? -/
def isElementNode : DNode → Bool
  | .text _ => false
  | .elem _ _ _ _ _ => true

/-- The observer callback for a burst of added nodes: buffer the element nodes and
arm the debounce timer unless it is already armed. A disconnected observer no
longer receives callbacks. -/
def observerCallback (addedNodes : List DNode) (st : WatcherState) : WatcherState :=
  if st.connected then
    let buffered := st.pendingMutations ++ addedNodes.filter isElementNode
    { st with pendingMutations := buffered, timerArmed := true }
  else st

/-- The teardown performed on disable: `observer.disconnect(); observer = null`.
Nothing else of the closure state is touched — in particular no `clearTimeout`
call exists anywhere in the content script. -/
def disconnectObserver (st : WatcherState) : WatcherState := { st with connected := false }

mutual

/-- Collect the proper descendants whose tag is in `tags` (document order). -/
def collectByTagN (tags : List String) : DNode → List DNode
  | .text _ => []
  | .elem t c a st ch =>
      (if tags.any (fun x => x == t) then [DNode.elem t c a st ch] else []) ++
        collectByTagL tags ch

def collectByTagL (tags : List String) : List DNode → List DNode
  | [] => []
  | n :: ns => collectByTagN tags n ++ collectByTagL tags ns

end

/-- The tag selectors of `processMutations`' descendant query. -/
def mutationTextTags : List String := ["P", "H1", "H2", "H3", "H4", "H5", "H6", "LI"]

/-- The firing of the debounce timer (`processMutations`): each buffered node and
its text-bearing descendants are handed to `analyzeElement`; the buffer is cleared
and the timer disarmed. Returns the processed elements and the new state. The
timer fires whether or not the observer is still connected. -/
def processMutationsFire (st : WatcherState) : List DNode × WatcherState :=
  (st.pendingMutations.foldr
      (fun n acc => (n :: collectByTagL mutationTextTags n.childList) ++ acc) [],
   { st with pendingMutations := [], timerArmed := false })

/-! ## Sample inputs used by the concrete witnesses -/

/-- A text the local heuristic flags as harmful and the quick pre-filter catches. -/
def sampleHarmfulText : String := "they plan to kill all people"

/-- A plain page paragraph carrying that text (already marked processed, as an
element is at the time its verdict arrives). -/
def sampleParagraph : DNode :=
  .elem "P" ["story"] [(processedAttr, "true")] {} [.text sampleHarmfulText]

/-- The settings snapshot after the user turns the extension off from the popup:
`enabled` is false but the per-feature toggles keep their values. -/
def disabledSettings : Settings :=
  { enabled := false, autoRephrase := false, showWarnings := true }

/-- A harmful verdict, as an in-flight analysis completion would deliver it. -/
def sampleHarmfulVerdict : AnalysisResult :=
  { text := sampleHarmfulText, isHarmful := true, category := "harmful",
    confidence := 9/10,
    explanation := "This content may cause harm or promote harmful activities." }

/-- A paragraph freshly inserted by the page, as buffered by the observer. -/
def insertedParagraph : DNode := .elem "P" [] [] {} [.text "dynamically inserted paragraph"]

/-! ## Helper lemmas -/

theorem ne_of_ai_classes {cls : List String}
    (hcls : ∀ c ∈ cls, startsWithAiGuardian c = false) {a : String}
    (ha : startsWithAiGuardian a = true) : ∀ c ∈ cls, c ≠ a := by
  intro c hc heq
  subst heq
  rw [hcls c hc] at ha
  exact Bool.false_ne_true ha

theorem any_beq_false_of_ai_classes {cls : List String}
    (hcls : ∀ c ∈ cls, startsWithAiGuardian c = false) {a : String}
    (ha : startsWithAiGuardian a = true) : cls.any (fun c => c == a) = false := by
  rw [List.any_eq_false]
  intro c hc
  simpa using ne_of_ai_classes hcls ha c hc

theorem filter_not_ai_eq_self {cls : List String}
    (hcls : ∀ c ∈ cls, startsWithAiGuardian c = false) :
    cls.filter (fun c => !startsWithAiGuardian c) = cls := by
  rw [List.filter_eq_self]
  intro c hc
  simp [hcls c hc]

theorem filter_bne_eq_self {cls : List String}
    (hcls : ∀ c ∈ cls, startsWithAiGuardian c = false) {a : String}
    (ha : startsWithAiGuardian a = true) :
    cls.filter (fun c => c != a) = cls := by
  rw [List.filter_eq_self]
  intro c hc
  simpa using ne_of_ai_classes hcls ha c hc

mutual

theorem countNodeB_eq_zero (p : DNode → Bool) :
    (n : DNode) → anyNodeB p n = false → countNodeB p n = 0
  | .text s, h => by
      simp only [anyNodeB] at h
      simp [countNodeB, h]
  | .elem t c a st ch, h => by
      simp only [anyNodeB, Bool.or_eq_false_iff] at h
      simp [countNodeB, h.1, countListB_eq_zero p ch h.2]

theorem countListB_eq_zero (p : DNode → Bool) :
    (l : List DNode) → anyListB p l = false → countListB p l = 0
  | [], _ => rfl
  | n :: ns, h => by
      simp only [anyListB, Bool.or_eq_false_iff] at h
      simp [countListB, countNodeB_eq_zero p n h.1, countListB_eq_zero p ns h.2]

end

theorem countListB_append (p : DNode → Bool) (l1 l2 : List DNode) :
    countListB p (l1 ++ l2) = countListB p l1 + countListB p l2 := by
  induction l1 with
  | nil => simp [countListB]
  | cons n ns ih => simp [countListB, ih, Nat.add_assoc]

theorem anyListB_append (p : DNode → Bool) (l1 l2 : List DNode) :
    anyListB p (l1 ++ l2) = (anyListB p l1 || anyListB p l2) := by
  induction l1 with
  | nil => simp [anyListB]
  | cons n ns ih => simp [anyListB, ih, Bool.or_assoc]

theorem hasAttr_setAttr {e : DNode} (he : isElementNode e = true) (name v : String) :
    hasAttr (setAttr e name v) name = true := by
  cases e with
  | text s => simp [isElementNode] at he
  | elem t c a st ch =>
      by_cases ha : a.any (fun p => p.1 == name)
      · simp only [setAttr, ha, if_true, hasAttr, DNode.attrList]
        rw [List.any_eq_true] at ha ⊢
        obtain ⟨q, hq, hqn⟩ := ha
        refine ⟨(name, v), List.mem_map.mpr ⟨q, hq, ?_⟩, by simp⟩
        simp [hqn]
      · simp only [setAttr, ha, if_false, hasAttr, DNode.attrList]
        rw [List.any_eq_true]
        exact ⟨(name, v), by simp, by simp⟩

theorem hasAttr_setStyleOpacity (e : DNode) (v name : String) :
    hasAttr (setStyleOpacity e v) name = hasAttr e name := by
  cases e <;> rfl

theorem hasAttr_setStyleTransition (e : DNode) (v name : String) :
    hasAttr (setStyleTransition e v) name = hasAttr e name := by
  cases e <;> rfl

theorem innerText_beq_empty_eq_false {e : DNode}
    (h : 10 ≤ (jsTrim (innerTextOf e)).length) : (innerTextOf e == "") = false := by
  cases hb : innerTextOf e == ""
  · rfl
  · exfalso
    have he : innerTextOf e = "" := by simpa using hb
    rw [he] at h
    simp [jsTrim] at h

/-- An element already carrying the processed marker is re-analyzed to a skip
that leaves it untouched, whatever the settings, cache and context. -/
theorem analyze_skips_processed (settings : Settings) (cache : Cache)
    (ctx : AncestorCtx) {e : DNode} (h : hasAttr e processedAttr = true) :
    analyzeElementSync settings cache ctx e = (e, .skipped) := by
  by_cases hig : shouldIgnoreElement ctx e
  · simp [analyzeElementSync, hig]
  · simp [analyzeElementSync, hig, h]

/-- A paragraph in its post-reversal state: no extension markup, no processed
marker — exactly what `removeAllModifications` leaves behind. -/
def restoredParagraph : DNode := .elem "P" ["story"] [] {} [.text sampleHarmfulText]

theorem anyNodeB_warningBadge (result : AnalysisResult) :
    anyNodeB (fun n => hasClass n "ai-guardian-warning") (warningBadge result) = true := by
  simp [warningBadge, anyNodeB, hasClass, DNode.classList]

theorem countNodeB_warningBadge (result : AnalysisResult) :
    countNodeB (fun n => hasClass n "ai-guardian-warning") (warningBadge result) = 1 := by
  by_cases hx : result.explanation == "" <;>
    simp [warningBadge, countNodeB, countListB, hasClass, svgIcon, DNode.classList, hx]

theorem childList_setStylePosition (e : DNode) (v : String) :
    (setStylePosition e v).childList = e.childList := by
  cases e <;> rfl

/-! ## Claims -/

/-- C2: the claim says an in-flight analysis completion arriving after the
pipeline has been disabled and reversal performed re-checks the settings and
processed state and never applies a warning badge, rephrase, or flagged class.
The code's completion callback checks only `showWarnings`/`autoRephrase`, never
`enabled` nor the processed state: with the extension disabled from the popup
(`enabled := false`, warnings still on) a late harmful verdict still attaches a
warning badge to an element that reversal had restored. -/
theorem c2_completion_resurrects_after_disable :
    removeAllModifications [restoredParagraph] = [restoredParagraph] ∧
    disabledSettings.enabled = false ∧
    descendantClassCount restoredParagraph "ai-guardian-warning" = 0 ∧
    descendantClassCount
      (analysisCompletion disabledSettings [] restoredParagraph sampleHarmfulText
        (some sampleHarmfulVerdict)).1 "ai-guardian-warning" = 1 :=
  ⟨rfl, rfl, rfl, rfl⟩

/-- C3: disconnecting the watcher is idempotent (the first conjunct), but — against
the claim — teardown leaves the debounce timer armed: the content script never
calls `clearTimeout`, so a burst buffered just before disable keeps
`processingTimeout` non-null across `observer.disconnect()`, and the pass still
fires and hands the buffered paragraph to `analyzeElement`. -/
theorem c3_teardown_leaves_timer_armed :
    (∀ st, disconnectObserver (disconnectObserver st) = disconnectObserver st) ∧
    (disconnectObserver (observerCallback [insertedParagraph] setupObserverState)).connected
        = false ∧
    (disconnectObserver (observerCallback [insertedParagraph] setupObserverState)).timerArmed
        = true ∧
    (processMutationsFire
        (disconnectObserver (observerCallback [insertedParagraph] setupObserverState))).1
      = [insertedParagraph] :=
  ⟨fun _ => rfl, rfl, rfl, rfl⟩

/-- C4 (counterexample): the claim says the local fallback classifies
"this will kill you" as harmful with confidence 0.7. The heuristic's harmful
patterns require phrases such as a kill-people combination; on this text every
pattern group misses, so the verdict is safe with confidence 0.6. -/
theorem c4_kill_you_classified_safe :
    (calculateLocalToxicityScore "this will kill you").isHarmful = false ∧
    (calculateLocalToxicityScore "this will kill you").category = "safe" ∧
    (calculateLocalToxicityScore "this will kill you").confidence = 6/10 :=
  ⟨rfl, rfl, rfl⟩

/-- C4 (amended): with the remote service unavailable, "this will kill you" is
classified safe with confidence 0.6 by the local fallback; a text the harmful
patterns do match, "they plan to kill all people", is classified harmful with
confidence 0.7, and under auto-rephrase the element is rendered as the fixed
safety-notice sentence (not a word-substituted variant). -/
theorem c4_local_fallback_determinism :
    calculateLocalToxicityScore "this will kill you" =
      { isHarmful := false, category := "safe", confidence := 6/10,
        explanation := "This content appears to be safe (analyzed locally)" } ∧
    calculateLocalToxicityScore sampleHarmfulText =
      { isHarmful := true, category := "harmful", confidence := 7/10,
        explanation := "This content may contain harmful material (detected locally)" } ∧
    rephraseTextContent .transportError sampleHarmfulText "harmful" =
      .ok { original := sampleHarmfulText,
            rephrased := "[This content has been modified for safety reasons]" } ∧
    applyReplacements sampleHarmfulText = "they plan to harm all people" ∧
    textContentN
      (rephraseContentSuccess sampleParagraph sampleHarmfulText
        "[This content has been modified for safety reasons]") =
      "[This content has been modified for safety reasons]" :=
  ⟨rfl, rfl, rfl, rfl, rfl⟩

/-- C6: an element whose trimmed visible text is shorter than 10 characters is
rejected by `analyzeElement` before the processed marking, before any style or
class mutation, and before the cache/pre-filter/remote steps: the element is
returned untouched and no remote call is issued. -/
theorem c6_short_text_untouched (settings : Settings) (cache : Cache)
    (ctx : AncestorCtx) (e : DNode)
    (h : (jsTrim (innerTextOf e)).length < 10) :
    analyzeElementSync settings cache ctx e = (e, .skipped) := by
  by_cases h1 : shouldIgnoreElement ctx e
  · simp [analyzeElementSync, h1]
  · by_cases h2 : hasAttr e processedAttr
    · simp [analyzeElementSync, h1, h2]
    · by_cases h3 : innerTextOf e == ""
      · simp [analyzeElementSync, h1, h2, h3]
      · simp [analyzeElementSync, h1, h2, h3, h]

/-- Witness for C6 at a concrete short paragraph. -/
theorem c6_short_text_untouched_witness :
    (jsTrim (innerTextOf (DNode.elem "P" [] [] {} [.text "  short  "]))).length < 10 ∧
    analyzeElementSync {} [] {} (DNode.elem "P" [] [] {} [.text "  short  "]) =
      (DNode.elem "P" [] [] {} [.text "  short  "], .skipped) :=
  ⟨by decide, c6_short_text_untouched {} [] {} _ (by decide)⟩

/-- C7: both background calls always resolve with a best-effort result — never a
hard error — and whenever the remote service is unavailable (non-2xx status or
transport failure) they degrade to the local fallback heuristics. -/
theorem c7_remote_failure_degrades_locally (fa : FetchResult AnalysisResult)
    (fr : FetchResult RephraseResult) (text category : String) :
    (∃ r, analyzeTextContent fa text = .ok r) ∧
    (∃ p, rephraseTextContent fr text category = .ok p) ∧
    (remoteUnavailable fa = true →
      analyzeTextContent fa text = .ok (verdictOfLocal text)) ∧
    (remoteUnavailable fr = true →
      rephraseTextContent fr text category =
        .ok { original := text, rephrased := localRephrase text category }) := by
  refine ⟨?_, ?_, ?_, ?_⟩
  · cases fa with
    | transportError => exact ⟨_, rfl⟩
    | response s b =>
        by_cases h : 200 ≤ s ∧ s ≤ 299
        · cases b with
          | some r => exact ⟨r, by simp [analyzeTextContent, h]⟩
          | none => exact ⟨verdictOfLocal text, by simp [analyzeTextContent, h]⟩
        · exact ⟨verdictOfLocal text, by simp [analyzeTextContent, h]⟩
  · cases fr with
    | transportError => exact ⟨_, rfl⟩
    | response s b =>
        by_cases h : 200 ≤ s ∧ s ≤ 299
        · cases b with
          | some r => exact ⟨r, by simp [rephraseTextContent, h]⟩
          | none => exact ⟨{ original := text, rephrased := localRephrase text category },
              by simp [rephraseTextContent, h]⟩
        · exact ⟨{ original := text, rephrased := localRephrase text category },
            by simp [rephraseTextContent, h]⟩
  · intro hf
    cases fa with
    | transportError => rfl
    | response s b =>
        have hns : ¬(200 ≤ s ∧ s ≤ 299) := by
          intro hs
          simp [remoteUnavailable, hs.1, hs.2] at hf
        simp [analyzeTextContent, hns]
  · intro hf
    cases fr with
    | transportError => rfl
    | response s b =>
        have hns : ¬(200 ≤ s ∧ s ≤ 299) := by
          intro hs
          simp [remoteUnavailable, hs.1, hs.2] at hf
        simp [rephraseTextContent, hns]

/-- Witness for C7 at a 500-status analysis response and a rephrase transport
failure. -/
theorem c7_remote_failure_degrades_locally_witness :
    remoteUnavailable (FetchResult.response 500 (none : Option AnalysisResult)) = true ∧
    analyzeTextContent (FetchResult.response 500 none) "this will kill you" =
      .ok (verdictOfLocal "this will kill you") ∧
    remoteUnavailable (FetchResult.transportError : FetchResult RephraseResult) = true ∧
    rephraseTextContent FetchResult.transportError "this will kill you" "harmful" =
      .ok { original := "this will kill you",
            rephrased := localRephrase "this will kill you" "harmful" } :=
  ⟨rfl,
   (c7_remote_failure_degrades_locally (FetchResult.response 500 none)
      FetchResult.transportError "this will kill you" "harmful").2.2.1 rfl,
   rfl,
   (c7_remote_failure_degrades_locally (FetchResult.response 500 none)
      FetchResult.transportError "this will kill you" "harmful").2.2.2 rfl⟩

/-- C9: for every input, the local rephrase fallback invoked with the harmful
category discards the word-substituted text entirely and yields the fixed
safety-notice sentence, while any other category receives exactly the whole-word
substitution pass. -/
theorem c9_harmful_rephrase_fixed_notice (text category : String) :
    localRephrase text "harmful" = "[This content has been modified for safety reasons]" ∧
    (category ≠ "harmful" → localRephrase text category = applyReplacements text) := by
  constructor
  · rfl
  · intro h
    simp [localRephrase, h]

/-- C5: warning-badge insertion is idempotent — at most one badge is ever attached
to an element. On a badge-free element one insertion attaches exactly one badge;
a second insertion (with any verdict) finds the existing badge and is the
identity; and a second concurrent `analyzeElement` on the same element is stopped
by the eager processed marker before it can mutate anything. -/
theorem c5_warning_badge_at_most_once (e : DNode) (result result2 : AnalysisResult) :
    (isElementNode e = true → descendantHasClass e "ai-guardian-warning" = false →
      descendantClassCount (addWarningIndicator e result) "ai-guardian-warning" = 1) ∧
    addWarningIndicator (addWarningIndicator e result) result2 =
      addWarningIndicator e result ∧
    (∀ (settings : Settings) (cache : Cache) (ctx : AncestorCtx),
      hasAttr e processedAttr = true →
      analyzeElementSync settings cache ctx e = (e, .skipped)) := by
  refine ⟨?_, ?_, fun settings cache ctx h => analyze_skips_processed settings cache ctx h⟩
  · intro he h0
    cases e with
    | text s => simp [isElementNode] at he
    | elem t c a st ch =>
        have hz : countListB (fun n => hasClass n "ai-guardian-warning") ch = 0 :=
          countListB_eq_zero _ ch h0
        by_cases hp : st.position = "" <;>
          simp [addWarningIndicator, h0, DNode.styleOf, hp, beq_iff_eq, setStylePosition,
            appendChild, withChildList, DNode.childList, descendantClassCount,
            countListB_append, hz, countListB, countNodeB_warningBadge]
  · cases e with
    | text s => rfl
    | elem t c a st ch =>
        by_cases hd : descendantHasClass (.elem t c a st ch) "ai-guardian-warning"
        · simp [addWarningIndicator, hd]
        · have hdl : anyListB (fun n => hasClass n "ai-guardian-warning") ch = false := by
            simpa [descendantHasClass, DNode.childList] using hd
          by_cases hp : st.position = "" <;>
            simp [addWarningIndicator, descendantHasClass, DNode.childList, hdl,
              DNode.styleOf, hp, beq_iff_eq, setStylePosition, appendChild,
              withChildList, anyListB_append, anyListB, anyNodeB_warningBadge]

/-- Witness for C5 at a concrete badge-free paragraph. -/
theorem c5_warning_badge_at_most_once_witness :
    isElementNode restoredParagraph = true ∧
    descendantHasClass restoredParagraph "ai-guardian-warning" = false ∧
    descendantClassCount (addWarningIndicator restoredParagraph sampleHarmfulVerdict)
      "ai-guardian-warning" = 1 ∧
    addWarningIndicator (addWarningIndicator restoredParagraph sampleHarmfulVerdict)
        sampleHarmfulVerdict =
      addWarningIndicator restoredParagraph sampleHarmfulVerdict :=
  ⟨rfl, rfl,
   (c5_warning_badge_at_most_once restoredParagraph sampleHarmfulVerdict
      sampleHarmfulVerdict).1 rfl rfl,
   (c5_warning_badge_at_most_once restoredParagraph sampleHarmfulVerdict
      sampleHarmfulVerdict).2.1⟩

/-- C8: two elements with the same trimmed text cost exactly one remote call.
The first eligible element (cache miss, pre-filter passed) issues the remote
request with the length-scaled delay; once its completion has cached the verdict,
the second element's analysis hits the cache with that very verdict — the same
result value is handed to `handleAnalysisResult` for both — and issues no remote
request. -/
theorem c8_identical_text_single_remote_call (settings : Settings) (cache0 : Cache)
    (ctx1 ctx2 : AncestorCtx) (e1 e2 : DNode) (t : String) (r : AnalysisResult)
    (h1 : shouldIgnoreElement ctx1 e1 = false)
    (h2 : hasAttr e1 processedAttr = false)
    (h3 : jsTrim (innerTextOf e1) = t)
    (h4 : 10 ≤ t.length)
    (h5 : uiTextExcluded ctx1 (markProcessed e1) t = false)
    (h6 : cacheGet cache0 t = none)
    (h7 : quickCheckTest t = true ∨ 100 ≤ t.length)
    (h8 : shouldIgnoreElement ctx2 e2 = false)
    (h9 : hasAttr e2 processedAttr = false)
    (h10 : jsTrim (innerTextOf e2) = t)
    (h11 : uiTextExcluded ctx2 (markProcessed e2) t = false) :
    (analyzeElementSync settings cache0 ctx1 e1).2 =
      .remoteRequested t (min (50 + t.length / 100) 200) ∧
    (analyzeElementSync settings (cacheSet cache0 t r) ctx2 e2).2 = .cacheHit r := by
  constructor
  · have hne : (innerTextOf e1 == "") = false :=
      innerText_beq_empty_eq_false (by rw [h3]; exact h4)
    have hlen : ¬(t.length < 10) := by omega
    have hq : ¬(quickCheckTest t = false ∧ t.length < 100) := by
      rcases h7 with hq | hl
      · simp [hq]
      · exact fun hc => absurd hc.2 (Nat.not_lt.mpr hl)
    by_cases har : settings.autoRephrase <;>
      simp [analyzeElementSync, h1, h2, hne, hlen, h3, h5, h6, hq, har]
  · have hne : (innerTextOf e2 == "") = false :=
      innerText_beq_empty_eq_false (by rw [h10]; exact h4)
    have hlen : ¬(t.length < 10) := by omega
    have hhit : cacheGet (cacheSet cache0 t r) t = some r := by
      simp [cacheGet, cacheSet, List.find?]
    simp [analyzeElementSync, h8, h9, hne, hlen, h10, h11, hhit]

/-- Witness for C8: two paragraphs with the same harmful sentence. -/
theorem c8_identical_text_single_remote_call_witness :
    (analyzeElementSync {} [] {} (DNode.elem "P" [] [] {} [.text sampleHarmfulText])).2 =
      .remoteRequested sampleHarmfulText
        (min (50 + sampleHarmfulText.length / 100) 200) ∧
    (analyzeElementSync {} (cacheSet [] sampleHarmfulText sampleHarmfulVerdict) {}
        (DNode.elem "LI" [] [] {} [.text sampleHarmfulText])).2 =
      .cacheHit sampleHarmfulVerdict :=
  c8_identical_text_single_remote_call {} [] {} {}
    (DNode.elem "P" [] [] {} [.text sampleHarmfulText])
    (DNode.elem "LI" [] [] {} [.text sampleHarmfulText])
    sampleHarmfulText sampleHarmfulVerdict
    (by decide) (by decide) (by decide) (by decide) (by decide) (by decide)
    (Or.inl (by decide)) (by decide) (by decide) (by decide) (by decide)

/-- C10: an element reaching analysis unmarked, unfiltered and with at least 10
trimmed characters is synchronously marked processed in every branch — including
the short-UI-text exclusion and the quick-pre-filter skip, which mark the element
and then stop with no verdict, no cache write and no remote call — and the marked
element is skipped untouched by any later analysis, whatever the settings, cache
and context. -/
theorem c10_eager_marking_and_no_reanalysis (settings : Settings) (cache : Cache)
    (ctx : AncestorCtx) (e : DNode)
    (he : isElementNode e = true)
    (h1 : shouldIgnoreElement ctx e = false)
    (h2 : hasAttr e processedAttr = false)
    (h3 : 10 ≤ (jsTrim (innerTextOf e)).length) :
    hasAttr (analyzeElementSync settings cache ctx e).1 processedAttr = true ∧
    (uiTextExcluded ctx (markProcessed e) (jsTrim (innerTextOf e)) = true →
      analyzeElementSync settings cache ctx e = (markProcessed e, .markedOnly)) ∧
    (uiTextExcluded ctx (markProcessed e) (jsTrim (innerTextOf e)) = false →
      cacheGet cache (jsTrim (innerTextOf e)) = none →
      quickCheckTest (jsTrim (innerTextOf e)) = false →
      (jsTrim (innerTextOf e)).length < 100 →
      analyzeElementSync settings cache ctx e = (markProcessed e, .markedOnly)) ∧
    (∀ (s2 : Settings) (cache2 : Cache) (ctx2 : AncestorCtx),
      analyzeElementSync s2 cache2 ctx2 (analyzeElementSync settings cache ctx e).1 =
        ((analyzeElementSync settings cache ctx e).1, .skipped)) := by
  have hne : (innerTextOf e == "") = false := innerText_beq_empty_eq_false h3
  have hlen : ¬((jsTrim (innerTextOf e)).length < 10) := by omega
  have hmark : hasAttr (markProcessed e) processedAttr = true :=
    hasAttr_setAttr he processedAttr "true"
  have hfst : hasAttr (analyzeElementSync settings cache ctx e).1 processedAttr = true := by
    by_cases hui : uiTextExcluded ctx (markProcessed e) (jsTrim (innerTextOf e))
    · simp [analyzeElementSync, h1, h2, hne, hlen, hui, hmark]
    · cases hc : cacheGet cache (jsTrim (innerTextOf e)) with
      | some cr => simp [analyzeElementSync, h1, h2, hne, hlen, hui, hc, hmark]
      | none =>
          by_cases hq : quickCheckTest (jsTrim (innerTextOf e)) = false ∧
              (jsTrim (innerTextOf e)).length < 100
          · simp [analyzeElementSync, h1, h2, hne, hlen, hui, hc, hq, hmark]
          · by_cases har : settings.autoRephrase <;>
              simp [analyzeElementSync, h1, h2, hne, hlen, hui, hc, hq, har,
                hasAttr_setStyleOpacity, hasAttr_setStyleTransition, hmark]
  refine ⟨hfst, ?_, ?_, ?_⟩
  · intro hui
    simp [analyzeElementSync, h1, h2, hne, hlen, hui]
  · intro hui hc hq hl
    simp [analyzeElementSync, h1, h2, hne, hlen, hui, hc, hq, hl]
  · intro s2 cache2 ctx2
    exact analyze_skips_processed s2 cache2 ctx2 hfst

/-- Witness for C10 at a long eligible paragraph that the pre-filter skips. -/
theorem c10_eager_marking_and_no_reanalysis_witness :
    isElementNode (DNode.elem "P" [] [] {} [.text "hello wonderful world today"]) = true ∧
    shouldIgnoreElement {} (DNode.elem "P" [] [] {} [.text "hello wonderful world today"])
        = false ∧
    hasAttr (DNode.elem "P" [] [] {} [.text "hello wonderful world today"]) processedAttr
        = false ∧
    10 ≤ (jsTrim (innerTextOf
        (DNode.elem "P" [] [] {} [.text "hello wonderful world today"]))).length ∧
    hasAttr (analyzeElementSync {} [] {}
        (DNode.elem "P" [] [] {} [.text "hello wonderful world today"])).1 processedAttr
        = true ∧
    analyzeElementSync {} [] {}
        (DNode.elem "P" [] [] {} [.text "hello wonderful world today"]) =
      (markProcessed (DNode.elem "P" [] [] {} [.text "hello wonderful world today"]),
        .markedOnly) :=
  ⟨by decide, by decide, by decide, by decide,
   (c10_eager_marking_and_no_reanalysis {} [] {} _
      (by decide) (by decide) (by decide) (by decide)).1,
   (c10_eager_marking_and_no_reanalysis {} [] {} _
      (by decide) (by decide) (by decide) (by decide)).2.2.1
     (by decide) (by decide) (by decide) (by decide)⟩

/-- C1: the rephrase/reverse round-trip. For an element flagged harmful with
auto-rephrase on — hence free of extension classes (it passed the ignore filter),
not already rephrased (the no-op guard), and with a non-empty recorded text (the
pipeline only analyzes texts of 10+ characters) — performing the rephrase
mutation, which records the verdict text `T` on the wrapper's provenance
attribute, and then running the full reversal routine leaves the element's text
content equal to `T` exactly. -/
theorem c1_rephrase_reverse_roundtrip (tag : String) (cls : List String)
    (attrs : List (String × String)) (st : Style) (ch : List DNode) (T R : String)
    (hcls : ∀ c ∈ cls, startsWithAiGuardian c = false)
    (hdesc : descendantHasClass (DNode.elem tag cls attrs st ch) "ai-guardian-rephrased"
        = false)
    (hT : T ≠ "") :
    textContentL (removeAllModifications
      [rephraseContentSuccess (DNode.elem tag cls attrs st ch) T R]) = T := by
  have hswproc : startsWithAiGuardian "ai-guardian-processing" = true := by decide
  have hswwarn : startsWithAiGuardian "ai-guardian-warning" = true := by decide
  have hswreph : startsWithAiGuardian "ai-guardian-rephrased" = true := by decide
  have hprocA := any_beq_false_of_ai_classes hcls hswproc
  have hwarnA := any_beq_false_of_ai_classes hcls hswwarn
  have hrephA := any_beq_false_of_ai_classes hcls hswreph
  have hindA := any_beq_false_of_ai_classes hcls
    (show startsWithAiGuardian "ai-guardian-indicator" = true by decide)
  have hg : rephraseGuard (DNode.elem tag cls attrs st ch) = false := by
    simp [rephraseGuard, hdesc, hasClass, DNode.classList, hrephA]
  by_cases hR : R = "" <;> by_cases hattr : attrs.any (fun p => p.1 == processedAttr) <;>
    simp [rephraseContentSuccess, hg, addClass, hprocA, removeClass, withChildList,
      DNode.classList, DNode.styleOf, DNode.attrList, List.filter_append,
      filter_not_ai_eq_self hcls, filter_bne_eq_self hcls hswproc, hswproc,
      removeAllModifications, dropClassList, dropClassNodes, hasClass, hwarnA, hindA,
      editIndicator, svgIcon, restoreRephrasedL, restoreRephrasedN, findRestorableOrig,
      getAttr, stripProcessedL, stripProcessedN, textContentL, textContentN,
      hR, hattr, hT]

/-- Witness for C1 at a concrete flagged paragraph rephrased to the safety
notice. -/
theorem c1_rephrase_reverse_roundtrip_witness :
    (∀ c ∈ (["story"] : List String), startsWithAiGuardian c = false) ∧
    descendantHasClass (DNode.elem "P" ["story"] [(processedAttr, "true")] {}
        [.text sampleHarmfulText]) "ai-guardian-rephrased" = false ∧
    sampleHarmfulText ≠ "" ∧
    textContentL (removeAllModifications
        [rephraseContentSuccess
          (DNode.elem "P" ["story"] [(processedAttr, "true")] {}
            [.text sampleHarmfulText])
          sampleHarmfulText
          "[This content has been modified for safety reasons]"]) = sampleHarmfulText :=
  ⟨by decide, by decide, by decide,
   c1_rephrase_reverse_roundtrip "P" ["story"] [(processedAttr, "true")] {}
     [.text sampleHarmfulText] sampleHarmfulText
     "[This content has been modified for safety reasons]"
     (by decide) (by decide) (by decide)⟩

/-- Witness for C9: an offensive text takes only the whole-word substitution. -/
theorem c9_harmful_rephrase_fixed_notice_witness :
    ("offensive" : String) ≠ "harmful" ∧
    localRephrase "you are an ass" "offensive" = applyReplacements "you are an ass" ∧
    applyReplacements "you are an ass" = "you are an ***" ∧
    localRephrase "you are an ass" "harmful" =
      "[This content has been modified for safety reasons]" :=
  ⟨by decide,
   (c9_harmful_rephrase_fixed_notice "you are an ass" "offensive").2 (by decide),
   rfl,
   (c9_harmful_rephrase_fixed_notice "you are an ass" "offensive").1⟩

end CyberGuard
